import Mathlib

/-
Shallow embedding of the Ohmegle front-end chat view
(src/src/pages/index.tsx, `Chat` component).

The component is single-threaded and event-driven: all mutation happens in
response to user actions (Next, Send, Report, typing), interval ticks (ban
countdown, session timer) or inbound channel events (matched, client-message,
client-disconnect, banned).  We model the component's local state as a record
`ChatState`, the ambient browser/channel context as `Env` (whether the channel
object is non-null, whether the video refs are attached, whether a 2d canvas
context is obtainable, the frame data URL a capture would yield, and the
current clock value `now` for Date.now()), and each handler as a pure function
`Env → ChatState → StepResult` returning the new state, the events triggered
on the channel, and the toasts shown.  `channel?.trigger` on a null channel
emits nothing, and the inbound handlers are only bound when the channel is
non-null (every binding effect starts with `if (!channel) return`), which the
model reflects by guarding on `Env.channelPresent`.

The component-level mutable variables `pc` and `localStream` holding the
RTCPeerConnection and the local MediaStream are modelled as a `VideoRes`
record inside the state: whether each exists, whether the peer connection has
been closed, and whether the local tracks have been stopped.
-/

namespace Ohmegle

/-- Chat mode: `useState<"text" | "video">("text")`. -/
inductive Mode
  | text
  | video
deriving DecidableEq, Repr

/-- A chat message as stored in the `messages` state:
`{ from: string; text: string }`. -/
structure Message where
  «from» : String
  text : String
deriving DecidableEq, Repr

/-- The payload of a `client-report` trigger:
`{ screenshot, reason, timestamp }`. -/
structure Report where
  screenshot : String
  reason : String
  timestamp : Nat
deriving DecidableEq, Repr

/-- Events the client triggers on the channel.  (The offer/answer/ICE payloads
play no role in the claims; `clientOffer` stands for the `client-offer`
trigger made at the end of `initVideo`.) -/
inductive OutEvent
  | clientNext
  | clientMessage (text : String)
  | clientReport (r : Report)
  | clientOffer
deriving DecidableEq, Repr

/-- A transient notice: the argument record of Chakra's `toast(...)` call. -/
structure Toast where
  title : String
  status : String
  duration : Nat
deriving DecidableEq, Repr

/-- The component-level video resources: the `pc` and `localStream` variables.
`pcPresent`/`streamPresent` say whether the variable has been assigned (by
`initVideo`); `pcClosed` records a `pc.close()` call and `tracksStopped`
records that every track of `localStream` got `t.stop()`. -/
structure VideoRes where
  pcPresent : Bool
  pcClosed : Bool
  streamPresent : Bool
  tracksStopped : Bool
deriving DecidableEq, Repr

/-- The `Chat` component's local state hooks. -/
structure ChatState where
  mode : Mode
  messages : List Message
  status : String
  input : String
  time : Nat
  isBanned : Bool
  banTimeLeft : Nat
  video : VideoRes
deriving DecidableEq, Repr

/-- Ambient context a handler runs in: whether the channel from
`PusherContext` is non-null, whether the video refs are attached, whether
`canvas.getContext("2d")` succeeds, the data URL `canvas.toDataURL` would
return for the current remote frame, and `Date.now()`. -/
structure Env where
  channelPresent : Bool
  remoteVideoPresent : Bool
  localVideoPresent : Bool
  ctx2dPresent : Bool
  frameDataURL : String
  now : Nat
deriving DecidableEq, Repr

/-- The result of running one handler: new state, channel triggers, toasts. -/
structure StepResult where
  state : ChatState
  events : List OutEvent
  toasts : List Toast
deriving DecidableEq, Repr

/-- `channel?.trigger(e)`: emits `e` iff the channel is non-null. -/
def trigger (env : Env) (e : OutEvent) : List OutEvent :=
  if env.channelPresent then [e] else []

/-- JavaScript's `str.padStart(len, c)`. -/
def padStart (len : Nat) (c : Char) (str : String) : String :=
  String.mk (List.replicate (len - str.length) c) ++ str

/-- `formatTime`: minutes and seconds, each zero-padded to two digits,
joined by a colon. -/
def formatTime (seconds : Nat) : String :=
  let m := padStart 2 '0' (Nat.repr (seconds / 60))
  let s := padStart 2 '0' (Nat.repr (seconds % 60))
  m ++ ":" ++ s

/-- `stopVideo`: stop every local track if a local stream exists, and close
the peer connection if one exists. -/
def stopVideo (v : VideoRes) : VideoRes :=
  let v1 := if v.streamPresent then { v with tracksStopped := true } else v
  if v1.pcPresent then { v1 with pcClosed := true } else v1

/-- `initVideo`: bails out unless both video refs are attached; otherwise
acquires a fresh local stream, creates a fresh peer connection, and triggers
`client-offer` on the channel. -/
def initVideo (env : Env) (v : VideoRes) : VideoRes × List OutEvent :=
  if !env.remoteVideoPresent || !env.localVideoPresent then (v, [])
  else
    ({ pcPresent := true, pcClosed := false, streamPresent := true, tracksStopped := false },
     trigger env OutEvent.clientOffer)

/-- `captureReportFrame`: `null` without a remote video element or without a
2d context, otherwise the JPEG data URL of the drawn frame. -/
def captureReportFrame (env : Env) : Option String :=
  if !env.remoteVideoPresent then none
  else if !env.ctx2dPresent then none
  else some env.frameDataURL

/-- `handleNext`: trigger `client-next`, stop the video resources, clear the
messages, reset the status to looking, reset the session timer. -/
def handleNext (env : Env) (s : ChatState) : StepResult :=
  { state := { s with
      video := stopVideo s.video
      messages := []
      status := "Looking for someone..."
      time := 0 }
    events := trigger env OutEvent.clientNext
    toasts := [] }

/-- `sendMessage`: a falsy (empty) input returns immediately; otherwise
trigger `client-message` with the input, append a message from "you", and
clear the input field. -/
def sendMessage (env : Env) (s : ChatState) : StepResult :=
  if s.input = "" then { state := s, events := [], toasts := [] }
  else
    { state := { s with
        messages := s.messages ++ [{ «from» := "you", text := s.input }]
        input := "" }
      events := trigger env (OutEvent.clientMessage s.input)
      toasts := [] }

/-- `reportUser`: a falsy screenshot (`null` or the empty string) shows the
error toast and triggers nothing; otherwise triggers `client-report` with
`{screenshot, reason, timestamp}` and shows the success toast. -/
def reportUser (env : Env) (s : ChatState) : StepResult :=
  match captureReportFrame env with
  | none =>
      { state := s, events := []
        toasts := [{ title := "No video to capture", status := "error", duration := 2000 }] }
  | some screenshot =>
      if screenshot = "" then
        { state := s, events := []
          toasts := [{ title := "No video to capture", status := "error", duration := 2000 }] }
      else
        { state := s
          events := trigger env (OutEvent.clientReport
            { screenshot := screenshot, reason := "Inappropriate behavior", timestamp := env.now })
          toasts := [{ title := "User reported", status := "success", duration := 2000 }] }

/-- The `banned` channel handler: set the active flag, the remaining
seconds, and the banned status text. -/
def onBanned (env : Env) (s : ChatState) (duration : Nat) : StepResult :=
  if !env.channelPresent then { state := s, events := [], toasts := [] }
  else
    { state := { s with
        isBanned := true
        banTimeLeft := duration
        status := "You are banned (" ++ formatTime duration ++ ")" }
      events := [], toasts := [] }

/-- One tick of the ban-countdown interval.  The interval only exists while
`isBanned` holds (the effect returns early otherwise); at `t <= 1` it clears
the ban state and resets the status, else it decrements and re-renders the
banned status text. -/
def banCountdownTick (s : ChatState) : StepResult :=
  if !s.isBanned then { state := s, events := [], toasts := [] }
  else if s.banTimeLeft ≤ 1 then
    { state := { s with
        isBanned := false
        status := "Looking for someone..."
        banTimeLeft := 0 }
      events := [], toasts := [] }
  else
    { state := { s with
        status := "You are banned (" ++ formatTime (s.banTimeLeft - 1) ++ ")"
        banTimeLeft := s.banTimeLeft - 1 }
      events := [], toasts := [] }

/-- One tick of the session-timer interval, which only exists while the
status is "Connected to stranger". -/
def sessionTimerTick (s : ChatState) : StepResult :=
  if s.status = "Connected to stranger" then
    { state := { s with time := s.time + 1 }, events := [], toasts := [] }
  else { state := s, events := [], toasts := [] }

/-- The `matched` channel handler: set the connected status and, in video
mode, run `initVideo`. -/
def onMatched (env : Env) (s : ChatState) : StepResult :=
  if !env.channelPresent then { state := s, events := [], toasts := [] }
  else
    let s1 := { s with status := "Connected to stranger" }
    if s.mode = Mode.video then
      let r := initVideo env s.video
      { state := { s1 with video := r.1 }, events := r.2, toasts := [] }
    else { state := s1, events := [], toasts := [] }

/-- The inbound `client-message` channel handler: append a message from
"stranger". -/
def onClientMessage (env : Env) (s : ChatState) (msg : String) : StepResult :=
  if !env.channelPresent then { state := s, events := [], toasts := [] }
  else
    { state := { s with messages := s.messages ++ [{ «from» := "stranger", text := msg }] }
      events := [], toasts := [] }

/-- The `client-disconnect` channel handler: set the disconnected status and,
in video mode, stop the video resources. -/
def onClientDisconnect (env : Env) (s : ChatState) : StepResult :=
  if !env.channelPresent then { state := s, events := [], toasts := [] }
  else
    let s1 := { s with status := "Stranger disconnected" }
    if s.mode = Mode.video then
      { state := { s1 with video := stopVideo s.video }, events := [], toasts := [] }
    else { state := s1, events := [], toasts := [] }

/-- The input field's onChange handler: `setInput(e.target.value)`. -/
def setInputValue (s : ChatState) (t : String) : StepResult :=
  { state := { s with input := t }, events := [], toasts := [] }

/-- Everything that can drive the chat view: user actions, interval ticks,
and inbound channel events. -/
inductive Event
  | next
  | send
  | typeInput (t : String)
  | report
  | banTick
  | sessionTick
  | banned (duration : Nat)
  | matched
  | clientMessage (text : String)
  | clientDisconnect
deriving DecidableEq, Repr

/-- Dispatch of one event to its handler. -/
def step (env : Env) (e : Event) (s : ChatState) : StepResult :=
  match e with
  | Event.next => handleNext env s
  | Event.send => sendMessage env s
  | Event.typeInput t => setInputValue s t
  | Event.report => reportUser env s
  | Event.banTick => banCountdownTick s
  | Event.sessionTick => sessionTimerTick s
  | Event.banned d => onBanned env s d
  | Event.matched => onMatched env s
  | Event.clientMessage t => onClientMessage env s t
  | Event.clientDisconnect => onClientDisconnect env s

/-- Sample video resources used by the concrete witnesses. -/
def sampleVideo : VideoRes :=
  { pcPresent := true, pcClosed := false, streamPresent := true, tracksStopped := false }

/-- Sample environment used by the concrete witnesses: channel non-null,
refs attached, 2d context available. -/
def sampleEnv : Env :=
  { channelPresent := true, remoteVideoPresent := true, localVideoPresent := true,
    ctx2dPresent := true, frameDataURL := "data:image/jpeg;base64,abc",
    now := 1700000000000 }

/-- Sample chat state used by the concrete witnesses. -/
def sampleState : ChatState :=
  { mode := Mode.text, messages := [{ «from» := "stranger", text := "hi" }],
    status := "Connected to stranger", input := "hello", time := 3,
    isBanned := false, banTimeLeft := 0, video := sampleVideo }

/-- C1: Pressing "next" (`handleNext`) clears the message list to empty and
resets the status text to the looking state ("Looking for someone..."), for
every prior session state. -/
theorem handleNext_clears_messages_and_status (env : Env) (s : ChatState) :
    (handleNext env s).state.messages = [] ∧
    (handleNext env s).state.status = "Looking for someone..." :=
  ⟨rfl, rfl⟩

/-- C3: Sending a message when the input field is empty is a no-op: no
`client-message` event is emitted, the message list is unchanged, and the
input field is unchanged (in fact the whole result is the unchanged state
with no events and no toasts). -/
theorem sendMessage_empty_input_noop (env : Env) (s : ChatState)
    (h : s.input = "") :
    sendMessage env s = { state := s, events := [], toasts := [] } := by
  unfold sendMessage
  simp [h]

/-- Witness for C3 at a concrete state with empty input. -/
theorem sendMessage_empty_input_noop_witness :
    sendMessage sampleEnv { sampleState with input := "" } =
      { state := { sampleState with input := "" }, events := [], toasts := [] } :=
  sendMessage_empty_input_noop sampleEnv { sampleState with input := "" } rfl

/-- C9: Sending a non-empty message appends exactly one message with sender
role "you" and text equal to the current input, emits one `client-message`
event carrying that text, and resets the input field to empty. -/
theorem sendMessage_nonempty_appends_and_emits (env : Env) (s : ChatState)
    (h : s.input ≠ "") (hc : env.channelPresent = true) :
    (sendMessage env s).state.messages =
      s.messages ++ [{ «from» := "you", text := s.input }] ∧
    (sendMessage env s).events = [OutEvent.clientMessage s.input] ∧
    (sendMessage env s).state.input = "" := by
  unfold sendMessage
  simp [h, trigger, hc]

/-- Witness for C9 at a concrete state with input "hello". -/
theorem sendMessage_nonempty_appends_and_emits_witness :
    (sendMessage sampleEnv sampleState).events =
      [OutEvent.clientMessage "hello"] :=
  (sendMessage_nonempty_appends_and_emits sampleEnv sampleState
    (by decide) rfl).2.1

/-- C8: The mode (text or video) is fixed for the lifetime of a session:
no operation or event handler ever changes the mode value. -/
theorem step_preserves_mode (env : Env) (e : Event) (s : ChatState) :
    (step env e s).state.mode = s.mode := by
  cases e <;>
    simp only [step, handleNext, sendMessage, setInputValue, reportUser,
      banCountdownTick, sessionTimerTick, onBanned, onMatched,
      onClientMessage, onClientDisconnect] <;>
    (try split) <;> (try split) <;> rfl

/-- C10: Pressing "next" leaves the ban state unchanged: the ban active flag
and the remaining seconds keep their values (and the input and mode are also
untouched); only status, messages, session timer and video resources are
modified. -/
theorem handleNext_preserves_ban_state (env : Env) (s : ChatState) :
    (handleNext env s).state.isBanned = s.isBanned ∧
    (handleNext env s).state.banTimeLeft = s.banTimeLeft ∧
    (handleNext env s).state.input = s.input ∧
    (handleNext env s).state.mode = s.mode :=
  ⟨rfl, rfl, rfl, rfl⟩

/-- C2: While the ban is active (with a positive remaining time, as set by a
server-pushed duration), each tick of the ban countdown decrements the
remaining seconds by exactly one; the tick that makes the remaining time
reach zero clears the ban state: the active flag becomes false, the
remaining seconds become 0, and the status returns to the looking state.
Ticks with more than one second left keep the ban active and re-render the
banned status text. -/
theorem banCountdownTick_decrements_and_clears (s : ChatState)
    (hb : s.isBanned = true) (ht : 1 ≤ s.banTimeLeft) :
    (banCountdownTick s).state.banTimeLeft = s.banTimeLeft - 1 ∧
    (s.banTimeLeft = 1 →
      (banCountdownTick s).state.isBanned = false ∧
      (banCountdownTick s).state.banTimeLeft = 0 ∧
      (banCountdownTick s).state.status = "Looking for someone...") ∧
    (2 ≤ s.banTimeLeft →
      (banCountdownTick s).state.isBanned = true ∧
      (banCountdownTick s).state.status =
        "You are banned (" ++ formatTime (s.banTimeLeft - 1) ++ ")") := by
  unfold banCountdownTick
  rcases Nat.lt_or_ge s.banTimeLeft 2 with h | h
  · have h1 : s.banTimeLeft = 1 := le_antisymm (by omega) ht
    simp [hb, h1]
  · have h2 : ¬ s.banTimeLeft ≤ 1 := by omega
    simp [hb, h2]
    omega

/-- Witness for C2 at a concrete banned state with two seconds left. -/
theorem banCountdownTick_decrements_and_clears_witness :
    (banCountdownTick { sampleState with
        isBanned := true, banTimeLeft := 2,
        status := "You are banned (00:02)" }).state.banTimeLeft = 1 :=
  (banCountdownTick_decrements_and_clears { sampleState with
      isBanned := true, banTimeLeft := 2,
      status := "You are banned (00:02)" } rfl (by decide)).1

/-- C6: On receiving a `banned` event carrying a duration d (with the
channel bound), the client sets the ban active flag to true, sets the
remaining seconds to d, and sets the status text to the banned state showing
d formatted as mm:ss by `formatTime`. -/
theorem onBanned_sets_ban_state (env : Env) (s : ChatState) (d : Nat)
    (hc : env.channelPresent = true) :
    (onBanned env s d).state.isBanned = true ∧
    (onBanned env s d).state.banTimeLeft = d ∧
    (onBanned env s d).state.status =
      "You are banned (" ++ formatTime d ++ ")" := by
  unfold onBanned
  simp [hc]

/-- Witness for C6 at duration 90, whose mm:ss rendering is "01:30". -/
theorem onBanned_sets_ban_state_witness :
    (onBanned sampleEnv sampleState 90).state.status =
      "You are banned (01:30)" :=
  ((onBanned_sets_ban_state sampleEnv sampleState 90 rfl).2.2).trans (by rfl)

/-- C4: When the report action cannot capture a video frame — no remote
video element, no 2d context (both make `captureReportFrame` return none) or
no (empty) screenshot data URL — it surfaces the transient error notice and
emits no `client-report` event; when a frame with a non-empty data URL is
captured (and the channel is non-null), it emits the `client-report` event
and surfaces the transient confirmation notice. -/
theorem reportUser_frame_capture_spec (env : Env) (s : ChatState)
    (hc : env.channelPresent = true) :
    ((captureReportFrame env = none ∨ captureReportFrame env = some "") →
      (reportUser env s).events = [] ∧
      (reportUser env s).toasts =
        [{ title := "No video to capture", status := "error", duration := 2000 }]) ∧
    (∀ sc, captureReportFrame env = some sc → sc ≠ "" →
      (reportUser env s).events =
        [OutEvent.clientReport
          { screenshot := sc, reason := "Inappropriate behavior", timestamp := env.now }] ∧
      (reportUser env s).toasts =
        [{ title := "User reported", status := "success", duration := 2000 }]) := by
  unfold reportUser
  constructor
  · rintro (h | h) <;> simp [h]
  · intro sc hsc hne
    simp [hsc, hne, trigger, hc]

/-- Witness for C4: with no remote video element the report emits nothing;
with a capturable frame it emits the `client-report` event. -/
theorem reportUser_frame_capture_spec_witness :
    (reportUser { sampleEnv with remoteVideoPresent := false } sampleState).events = [] ∧
    (reportUser sampleEnv sampleState).events =
      [OutEvent.clientReport
        { screenshot := "data:image/jpeg;base64,abc",
          reason := "Inappropriate behavior", timestamp := 1700000000000 }] :=
  ⟨((reportUser_frame_capture_spec { sampleEnv with remoteVideoPresent := false }
      sampleState rfl).1 (Or.inl rfl)).1,
   ((reportUser_frame_capture_spec sampleEnv sampleState rfl).2
      "data:image/jpeg;base64,abc" rfl (by decide)).1⟩

/-- C5: Every outbound `client-report` event, across all operations and
handlers, carries exactly the payload {screenshot, reason, timestamp} (the
fields of `Report`), where the screenshot is the data URL of the captured
frame, the reason is the fixed string, and the timestamp is the current
clock value. -/
theorem clientReport_payload_shape (env : Env) (e : Event) (s : ChatState)
    (r : Report) (h : OutEvent.clientReport r ∈ (step env e s).events) :
    captureReportFrame env = some r.screenshot ∧
    r.reason = "Inappropriate behavior" ∧
    r.timestamp = env.now := by
  cases e <;>
    simp only [step, handleNext, sendMessage, setInputValue, reportUser,
      banCountdownTick, sessionTimerTick, onBanned, onMatched,
      onClientMessage, onClientDisconnect, initVideo, trigger] at h
  case next =>
    split at h <;> simp at h
  case send =>
    split at h
    · simp at h
    · split at h <;> simp at h
  case typeInput => simp at h
  case report =>
    rcases hcap : captureReportFrame env with _ | sc <;> rw [hcap] at h
    · simp at h
    · by_cases hsc : sc = ""
      · simp [hsc] at h
      · simp [hsc] at h
        rcases h with ⟨h1, rfl⟩
        exact ⟨rfl, rfl, rfl⟩
  case banTick =>
    split at h
    · simp at h
    · split at h <;> simp at h
  case sessionTick =>
    split at h <;> simp at h
  case banned =>
    split at h <;> simp at h
  case matched =>
    split at h
    · simp at h
    · split at h
      · split at h
        · simp at h
        · split at h <;> simp at h
      · simp at h
  case clientMessage =>
    split at h <;> simp at h
  case clientDisconnect =>
    split at h
    · simp at h
    · split at h <;> simp at h

/-- Witness for C5 at the concrete report step of the sample environment. -/
theorem clientReport_payload_shape_witness :
    captureReportFrame sampleEnv = some "data:image/jpeg;base64,abc" :=
  (clientReport_payload_shape sampleEnv Event.report sampleState
    { screenshot := "data:image/jpeg;base64,abc",
      reason := "Inappropriate behavior", timestamp := 1700000000000 }
    (by decide)).1

/-- C7: On "next" the client runs `stopVideo`, and on receiving
`client-disconnect` in video mode it runs `stopVideo`; `stopVideo` closes
the peer connection (when one exists) and stops all local media tracks (when
a local stream exists).  No other event performs any such cancellation: any
other event leaves a still-open peer connection open and still-live local
tracks live. -/
theorem video_teardown_only_on_next_or_disconnect (env : Env) (s : ChatState) :
    (step env Event.next s).state.video = stopVideo s.video ∧
    (env.channelPresent = true → s.mode = Mode.video →
      (step env Event.clientDisconnect s).state.video = stopVideo s.video) ∧
    (s.video.pcPresent = true → (stopVideo s.video).pcClosed = true) ∧
    (s.video.streamPresent = true → (stopVideo s.video).tracksStopped = true) ∧
    (∀ e : Event, e ≠ Event.next → e ≠ Event.clientDisconnect →
      ((step env e s).state.video.pcClosed = true → s.video.pcClosed = true) ∧
      ((step env e s).state.video.tracksStopped = true →
        s.video.tracksStopped = true)) := by
  refine ⟨rfl, ?_, ?_, ?_, ?_⟩
  · intro hc hm
    simp [step, onClientDisconnect, hc, hm]
  · intro hp
    unfold stopVideo
    split <;> simp [hp]
  · intro hs
    unfold stopVideo
    simp [hs]
    split <;> rfl
  · intro e hn hd
    cases e <;> try exact absurd rfl hn
    case clientDisconnect => exact absurd rfl hd
    all_goals
      simp only [step, sendMessage, setInputValue, reportUser,
        banCountdownTick, sessionTimerTick, onBanned, onMatched,
        onClientMessage, initVideo]
    case send =>
      split <;> exact ⟨fun h => h, fun h => h⟩
    case typeInput => exact ⟨fun h => h, fun h => h⟩
    case report =>
      rcases captureReportFrame env with _ | sc
      · exact ⟨fun h => h, fun h => h⟩
      · by_cases hsc : sc = "" <;> simp [hsc]
    case banTick =>
      split
      · exact ⟨fun h => h, fun h => h⟩
      · split <;> exact ⟨fun h => h, fun h => h⟩
    case sessionTick =>
      split <;> exact ⟨fun h => h, fun h => h⟩
    case banned =>
      split <;> exact ⟨fun h => h, fun h => h⟩
    case matched =>
      split
      · exact ⟨fun h => h, fun h => h⟩
      · split
        · split
          · exact ⟨fun h => h, fun h => h⟩
          · exact ⟨fun h => by simp at h, fun h => by simp at h⟩
        · exact ⟨fun h => h, fun h => h⟩
    case clientMessage =>
      split <;> exact ⟨fun h => h, fun h => h⟩

/-- Witness for C7: at the sample state, pressing "next" closes the open
peer connection, and the frame part instantiated at the ban-tick event. -/
theorem video_teardown_only_on_next_or_disconnect_witness :
    (step sampleEnv Event.next sampleState).state.video = stopVideo sampleState.video ∧
    (stopVideo sampleState.video).pcClosed = true ∧
    ((step sampleEnv Event.banTick sampleState).state.video.pcClosed = true →
      sampleState.video.pcClosed = true) :=
  ⟨(video_teardown_only_on_next_or_disconnect sampleEnv sampleState).1,
   (video_teardown_only_on_next_or_disconnect sampleEnv sampleState).2.2.1 rfl,
   ((video_teardown_only_on_next_or_disconnect sampleEnv sampleState).2.2.2.2
      Event.banTick (by decide) (by decide)).1⟩

end Ohmegle
